import Mathlib

/-!
Shallow embedding of the transcription pipeline of DavidSebas20/transcription-app
(`src/app/api/transcribe/route.ts`, the variant of it shipped in the unnamed
source part, and `src/lib/utils.ts`), together with theorems checking the
specification's claims about it.

Byte buffers are modelled as `List Nat`, file paths and JS strings as `String`.
The effectful parts (file writes, deletions, API calls) are modelled by
explicit result records listing the calls made, the chunk files written and
the chunk files deleted; the OpenAI transcription endpoint is an oracle
parameter.
-/

namespace TranscriptionApp

/-! ## Configuration constants (`route.ts` lines 10-11) -/

/-- `MAX_SIZE = 25 * 1024 * 1024` — OpenAI's limit; files at most this size are
transcribed directly. -/
def MAX_SIZE : Nat := 25 * 1024 * 1024

/-- `CHUNK_SIZE = 20 * 1024 * 1024` — bytes per chunk for large files. -/
def CHUNK_SIZE : Nat := 20 * 1024 * 1024

/-! ## JS string helpers used by the source -/

/-- Model of JS `String.prototype.toLowerCase` (ASCII case mapping, which is all
the source applies it to: file extensions). -/
def jsToLower (s : String) : String :=
  String.mk (s.data.map fun c => if 'A' ≤ c ∧ c ≤ 'Z' then Char.ofNat (c.toNat + 32) else c)

/-- Index of the last `'.'` in a character list, if any. -/
def lastDotIdx : List Char → Option Nat
  | [] => none
  | c :: cs =>
    match lastDotIdx cs with
    | some i => some (i + 1)
    | none => if c = '.' then some 0 else none

/-- Model of Node `path.extname` for separator-free file names: the suffix from
the last dot, except that a name with no dot, a name whose only dot is its
first character (a dotfile such as `.gitignore`), and the special name `".."`
have extension `""`. -/
def extname (s : String) : String :=
  if s = ".." then ""
  else
    match lastDotIdx s.data with
    | none => ""
    | some 0 => ""
    | some i => String.mk (s.data.drop i)

/-! ## Format validation (`route.ts` lines 23-29) -/

/-- `SUPPORTED_FORMATS` — the server-side allow-list (OpenAI Whisper formats). -/
def SUPPORTED_FORMATS : List String :=
  [".flac", ".m4a", ".mp3", ".mp4", ".mpeg", ".mpga", ".oga", ".ogg", ".wav", ".webm"]

/-- `isSupportedFormat(fileName)`: the lower-cased extension is in the
allow-list. -/
def isSupportedFormat (fileName : String) : Bool :=
  SUPPORTED_FORMATS.contains (jsToLower (extname fileName))

/-! ## Chunk splitting (`route.ts` lines 32-57) -/

/-- `Math.ceil(fileSize / CHUNK_SIZE)` (exact rational arithmetic; file sizes
are far below the range where JS float division is inexact). -/
def numChunks (fileSize : Nat) : Nat := (fileSize + CHUNK_SIZE - 1) / CHUNK_SIZE

/-- The temporary path `path.join(os.tmpdir(), `chunk_${i}_${Date.now()}${extension}`)`;
the temp directory and the `Date.now()` timestamp are parameters. -/
def chunkPath (tmpdir : String) (now : Nat) (extension : String) (i : Nat) : String :=
  tmpdir ++ "/chunk_" ++ toString i ++ "_" ++ toString now ++ extension

/-- `splitMP3IntoChunks(filePath, fileSize)`: for each `i < numChunks`,
`fileBuffer.slice(i*CHUNK_SIZE, min(i*CHUNK_SIZE + CHUNK_SIZE, fileSize))` is
written to `chunkPath ... i`. The result pairs each chunk path with the bytes
written to it; the source function returns the paths and performs the writes. -/
def splitMP3IntoChunks (tmpdir : String) (now : Nat) (filePath : String)
    (fileBuffer : List Nat) (fileSize : Nat) : List (String × List Nat) :=
  (List.range (numChunks fileSize)).map fun i =>
    (chunkPath tmpdir now (extname filePath) i,
     (fileBuffer.take (min (i * CHUNK_SIZE + CHUNK_SIZE) fileSize)).drop (i * CHUNK_SIZE))

/-! ## Lemmas about the chunk split -/

/-- The slice the source computes, `buffer.slice(s, min(s+C, S))`, equals
`take C` of `drop s` when the buffer has length `S`. -/
theorem chunkSlice_eq {α : Type} (l : List α) (S s C : Nat) (hl : l.length = S) :
    (l.take (min (s + C) S)).drop s = (l.drop s).take C := by
  rw [List.drop_take]
  rcases le_or_lt (s + C) S with h | h
  · rw [min_eq_left h]
    congr 1
    omega
  · rw [min_eq_right h.le]
    have hlen : (l.drop s).length = S - s := by rw [List.length_drop, hl]
    rw [List.take_of_length_le (by omega), List.take_of_length_le (by omega)]

/-- Joining the `n` consecutive `C`-sized slices of a list of length at most
`n * C` gives back the list. -/
theorem join_slices {α : Type} (C : Nat) :
    ∀ (n : Nat) (l : List α), l.length ≤ n * C →
      ((List.range n).map fun i => (l.drop (i * C)).take C).flatten = l := by
  intro n
  induction n with
  | zero =>
    intro l h
    have hl : l = [] := List.length_eq_zero.mp (by omega)
    subst hl
    rfl
  | succ n ih =>
    intro l h
    rw [List.range_succ_eq_map, List.map_cons, List.flatten_cons, List.map_map]
    have h1 : ((fun i => (l.drop (i * C)).take C) ∘ Nat.succ) =
        fun i => ((l.drop C).drop (i * C)).take C := by
      funext i
      show (l.drop (Nat.succ i * C)).take C = ((l.drop C).drop (i * C)).take C
      rw [List.drop_drop, Nat.succ_mul, Nat.add_comm (i * C) C]
    have h2 : (l.drop C).length ≤ n * C := by
      rw [Nat.succ_mul] at h
      simp only [List.length_drop]
      omega
    rw [h1, ih (l.drop C) h2]
    simp only [Nat.zero_mul, List.drop_zero]
    exact List.take_append_drop C l

/-- `numChunks` is the ceiling of `S / CHUNK_SIZE`: for positive `S` it is the
least `n` with `S ≤ n * CHUNK_SIZE`. -/
theorem numChunks_ceil (S : Nat) (hS : 0 < S) :
    CHUNK_SIZE * (numChunks S - 1) < S ∧ S ≤ CHUNK_SIZE * numChunks S := by
  unfold numChunks CHUNK_SIZE
  omega

/-- C1: for positive file size `S` and a buffer of length `S`,
`splitMP3IntoChunks` produces `ceil(S / CHUNK_SIZE)` chunks (stated as: the
count is the least `n` with `S ≤ n * CHUNK_SIZE`), chunk `i` holds exactly the
byte range `[i * CHUNK_SIZE, min((i+1) * CHUNK_SIZE, S))`, and concatenating
the chunk buffers in index order reconstructs the original byte sequence. -/
theorem splitMP3IntoChunks_correct (tmpdir : String) (now : Nat) (filePath : String)
    (buf : List Nat) (S : Nat) (hlen : buf.length = S) (hS : 0 < S) :
    (CHUNK_SIZE * ((splitMP3IntoChunks tmpdir now filePath buf S).length - 1) < S ∧
      S ≤ CHUNK_SIZE * (splitMP3IntoChunks tmpdir now filePath buf S).length) ∧
    (∀ i, (h : i < (splitMP3IntoChunks tmpdir now filePath buf S).length) →
      ((splitMP3IntoChunks tmpdir now filePath buf S).get ⟨i, h⟩).2 =
        (buf.take (min ((i + 1) * CHUNK_SIZE) S)).drop (i * CHUNK_SIZE)) ∧
    ((splitMP3IntoChunks tmpdir now filePath buf S).map Prod.snd).flatten = buf := by
  have hlen' : (splitMP3IntoChunks tmpdir now filePath buf S).length = numChunks S := by
    simp [splitMP3IntoChunks]
  refine ⟨?_, ?_, ?_⟩
  · rw [hlen']
    exact numChunks_ceil S hS
  · intro i h
    simp only [splitMP3IntoChunks, List.get_eq_getElem, List.getElem_map,
      List.getElem_range]
    have he : i * CHUNK_SIZE + CHUNK_SIZE = (i + 1) * CHUNK_SIZE := by ring
    rw [he]
  · have hmap : (splitMP3IntoChunks tmpdir now filePath buf S).map Prod.snd =
        (List.range (numChunks S)).map fun i => (buf.drop (i * CHUNK_SIZE)).take CHUNK_SIZE := by
      simp only [splitMP3IntoChunks, List.map_map]
      refine List.map_congr_left fun i _ => ?_
      exact chunkSlice_eq buf S (i * CHUNK_SIZE) CHUNK_SIZE hlen
    rw [hmap]
    refine join_slices CHUNK_SIZE (numChunks S) buf ?_
    rw [hlen, Nat.mul_comm]
    exact (numChunks_ceil S hS).2

/-- Concrete instantiation of `splitMP3IntoChunks_correct` at a 3-byte file. -/
theorem splitMP3IntoChunks_correct_witness :
    ([1, 2, 3] : List Nat).length = 3 ∧ 0 < 3 ∧
    ((CHUNK_SIZE * ((splitMP3IntoChunks "/tmp" 0 "/tmp/a.mp3" [1, 2, 3] 3).length - 1) < 3 ∧
      3 ≤ CHUNK_SIZE * (splitMP3IntoChunks "/tmp" 0 "/tmp/a.mp3" [1, 2, 3] 3).length) ∧
    (∀ i, (h : i < (splitMP3IntoChunks "/tmp" 0 "/tmp/a.mp3" [1, 2, 3] 3).length) →
      ((splitMP3IntoChunks "/tmp" 0 "/tmp/a.mp3" [1, 2, 3] 3).get ⟨i, h⟩).2 =
        (([1, 2, 3] : List Nat).take (min ((i + 1) * CHUNK_SIZE) 3)).drop (i * CHUNK_SIZE)) ∧
    ((splitMP3IntoChunks "/tmp" 0 "/tmp/a.mp3" [1, 2, 3] 3).map Prod.snd).flatten = [1, 2, 3]) :=
  ⟨rfl, by decide, splitMP3IntoChunks_correct "/tmp" 0 "/tmp/a.mp3" [1, 2, 3] 3 rfl (by decide)⟩

/-! ## The orchestrator `processAudioFile` (`route.ts` lines 77-140) -/

/-- JS whitespace test, for the characters that can occur here: space, tab,
line feed, carriage return, vertical tab, form feed, no-break space. -/
def jsWhitespace (c : Char) : Bool :=
  c = ' ' || c = '\t' || c = '\n' || c = '\r' || c = '\x0b' || c = '\x0c' || c = ' '

/-- Model of JS `String.prototype.trim`: remove leading and trailing
whitespace. -/
def jsTrim (s : String) : String :=
  String.mk (((s.data.dropWhile jsWhitespace).reverse.dropWhile jsWhitespace).reverse)

/-- Model of JS `Array.prototype.join(sep)` on string arrays. -/
def joinWithSep (sep : String) : List String → String
  | [] => ""
  | [s] => s
  | s :: rest => s ++ sep ++ joinWithSep sep rest

/-- Observable outcome of one `processAudioFile` run: the returned transcript
or thrown error, the paths passed to `transcribeAudio` in call order, the
chunk files written, and the chunk files deleted by the `finally` block. -/
structure Run where
  result : Except String String
  calls : List String
  written : List String
  deleted : List String
deriving Repr

/-- The sequential per-chunk loop (`route.ts` lines 105-121): transcribe each
chunk in order; on the first failure wrap the message and stop. Returns the
loop outcome together with the list of paths actually passed to the API. -/
def transcribeChunks (tr : String → Except String String) (total : Nat) :
    List String → Nat → Except String (List String) × List String
  | [], _ => (Except.ok [], [])
  | p :: ps, i =>
    match tr p with
    | Except.error e =>
      (Except.error ("Falló la transcripción del fragmento " ++ toString (i + 1) ++ "/" ++
        toString total ++ ". Error: " ++ e ++ ". El proceso se ha detenido."), [p])
    | Except.ok t =>
      match transcribeChunks tr total ps (i + 1) with
      | (Except.error e, cs) => (Except.error e, p :: cs)
      | (Except.ok ts, cs) => (Except.ok (t :: ts), p :: cs)

/-- `processAudioFile(filePath, fileSize, originalName)`, with the
`transcribeAudio` API modelled by the oracle `tr` from file path to outcome.
The `finally` block always deletes exactly the accumulated `chunksToClean`,
which equals the chunk files written. -/
def processAudioFile (tr : String → Except String String) (tmpdir : String) (now : Nat)
    (filePath : String) (fileBuffer : List Nat) (fileSize : Nat) (originalName : String) :
    Run :=
  if isSupportedFormat originalName = false then
    { result := Except.error ("Formato " ++ jsToLower (extname originalName) ++
        " no soportado. Por favor, convierte tu audio a MP3 primero usando un convertidor online.")
      calls := [], written := [], deleted := [] }
  else if fileSize ≤ MAX_SIZE then
    match tr filePath with
    | Except.error e =>
      { result := Except.error e, calls := [filePath], written := [], deleted := [] }
    | Except.ok t =>
      if (jsTrim (joinWithSep "\n\n" [t])).length = 0 then
        { result := Except.error "No se pudo obtener ninguna transcripción del audio",
          calls := [filePath], written := [], deleted := [] }
      else
        { result := Except.ok (joinWithSep "\n\n" [t]),
          calls := [filePath], written := [], deleted := [] }
  else
    match transcribeChunks tr
        ((splitMP3IntoChunks tmpdir now filePath fileBuffer fileSize).map Prod.fst).length
        ((splitMP3IntoChunks tmpdir now filePath fileBuffer fileSize).map Prod.fst) 0 with
    | (Except.error e, cs) =>
      { result := Except.error e, calls := cs,
        written := (splitMP3IntoChunks tmpdir now filePath fileBuffer fileSize).map Prod.fst,
        deleted := (splitMP3IntoChunks tmpdir now filePath fileBuffer fileSize).map Prod.fst }
    | (Except.ok ts, cs) =>
      if (jsTrim (joinWithSep "\n\n" ts)).length = 0 then
        { result := Except.error "No se pudo obtener ninguna transcripción del audio",
          calls := cs,
          written := (splitMP3IntoChunks tmpdir now filePath fileBuffer fileSize).map Prod.fst,
          deleted := (splitMP3IntoChunks tmpdir now filePath fileBuffer fileSize).map Prod.fst }
      else
        { result := Except.ok (joinWithSep "\n\n" ts), calls := cs,
          written := (splitMP3IntoChunks tmpdir now filePath fileBuffer fileSize).map Prod.fst,
          deleted := (splitMP3IntoChunks tmpdir now filePath fileBuffer fileSize).map Prod.fst }

/-! ## Lemmas about the chunk loop -/

/-- A `Forall₂` relation yields a related element for every member of the left
list. -/
theorem forall2_exists_of_mem {α β : Type} {R : α → β → Prop} :
    ∀ {ps : List α} {ts : List β}, List.Forall₂ R ps ts → ∀ p ∈ ps, ∃ t, R p t := by
  intro ps ts h
  induction h with
  | nil => intro p hp; cases hp
  | cons h1 _ ih =>
    intro p hp
    rcases List.mem_cons.mp hp with rfl | hmem
    · exact ⟨_, h1⟩
    · exact ih p hmem

/-- If the chunk loop returns success, every chunk path was called, in order,
and each call succeeded with the corresponding fragment. -/
theorem transcribeChunks_ok {tr : String → Except String String} {total : Nat} :
    ∀ {ps : List String} {i : Nat} {ts cs : List String},
      transcribeChunks tr total ps i = (Except.ok ts, cs) →
      cs = ps ∧ List.Forall₂ (fun p t => tr p = Except.ok t) ps ts := by
  intro ps
  induction ps with
  | nil =>
    intro i ts cs h
    simp only [transcribeChunks, Prod.mk.injEq, Except.ok.injEq] at h
    obtain ⟨h1, h2⟩ := h
    subst h1
    subst h2
    exact ⟨rfl, List.Forall₂.nil⟩
  | cons p ps ih =>
    intro i ts cs h
    simp only [transcribeChunks] at h
    cases htr : tr p with
    | error e => rw [htr] at h; simp at h
    | ok t =>
      rw [htr] at h
      cases hrec : transcribeChunks tr total ps (i + 1) with
      | mk r cs' =>
        rw [hrec] at h
        cases r with
        | error e => simp at h
        | ok ts' =>
          simp only [Prod.mk.injEq, Except.ok.injEq] at h
          obtain ⟨h1, h2⟩ := h
          subst h1
          subst h2
          obtain ⟨hcs, hfa⟩ := ih hrec
          exact ⟨by rw [hcs], List.Forall₂.cons htr hfa⟩

/-- Conversely, when every chunk call succeeds with the related fragment, the
loop returns exactly those fragments and calls exactly the chunk paths. -/
theorem transcribeChunks_of_forall2 {tr : String → Except String String} {total : Nat} :
    ∀ {ps ts : List String}, List.Forall₂ (fun p t => tr p = Except.ok t) ps ts →
      ∀ i, transcribeChunks tr total ps i = (Except.ok ts, ps) := by
  intro ps ts hfa
  induction hfa with
  | nil => intro i; rfl
  | cons h1 _ ih =>
    intro i
    simp only [transcribeChunks, h1, ih (i + 1)]

/-- The `finally` block deletes exactly the chunk files registered for
cleanup, i.e. exactly the chunk files written, on every exit path. -/
theorem processAudioFile_deleted_eq_written (tr : String → Except String String)
    (tmpdir : String) (now : Nat) (filePath : String) (fileBuffer : List Nat)
    (fileSize : Nat) (originalName : String) :
    (processAudioFile tr tmpdir now filePath fileBuffer fileSize originalName).deleted =
      (processAudioFile tr tmpdir now filePath fileBuffer fileSize originalName).written := by
  unfold processAudioFile
  split
  · rfl
  · split
    · split
      · rfl
      · split
        · rfl
        · rfl
    · split
      · rfl
      · split
        · rfl
        · rfl

/-! ## Claim C2: chunk failure aborts the run and chunk files are cleaned up -/

/-- C2: if any per-chunk transcription fails, `processAudioFile` returns a
failure (no partial transcript), the chunk files written are exactly the split
output, and the deleted files equal the written files — the cleanup invariant
the `finally` block guarantees on every exit path. -/
theorem processAudioFile_chunk_failure_aborts_and_cleans
    (tr : String → Except String String) (tmpdir : String) (now : Nat) (filePath : String)
    (fileBuffer : List Nat) (fileSize : Nat) (originalName : String)
    (hsup : isSupportedFormat originalName = true)
    (hbig : MAX_SIZE < fileSize)
    (p : String)
    (hp : p ∈ (splitMP3IntoChunks tmpdir now filePath fileBuffer fileSize).map Prod.fst)
    (hfail : ∀ t, tr p ≠ Except.ok t) :
    (∃ e, (processAudioFile tr tmpdir now filePath fileBuffer fileSize originalName).result =
      Except.error e) ∧
    (processAudioFile tr tmpdir now filePath fileBuffer fileSize originalName).written =
      (splitMP3IntoChunks tmpdir now filePath fileBuffer fileSize).map Prod.fst ∧
    (processAudioFile tr tmpdir now filePath fileBuffer fileSize originalName).deleted =
      (processAudioFile tr tmpdir now filePath fileBuffer fileSize originalName).written := by
  have hnsup : ¬ isSupportedFormat originalName = false := by simp [hsup]
  have hnle : ¬ fileSize ≤ MAX_SIZE := Nat.not_le.mpr hbig
  have hmain : (∃ e,
      (processAudioFile tr tmpdir now filePath fileBuffer fileSize originalName).result =
        Except.error e) ∧
      (processAudioFile tr tmpdir now filePath fileBuffer fileSize originalName).written =
        (splitMP3IntoChunks tmpdir now filePath fileBuffer fileSize).map Prod.fst := by
    unfold processAudioFile
    rw [if_neg hnsup, if_neg hnle]
    cases h : transcribeChunks tr
        ((splitMP3IntoChunks tmpdir now filePath fileBuffer fileSize).map Prod.fst).length
        ((splitMP3IntoChunks tmpdir now filePath fileBuffer fileSize).map Prod.fst) 0 with
    | mk r cs =>
      cases r with
      | error e => exact ⟨⟨e, rfl⟩, rfl⟩
      | ok ts =>
        obtain ⟨_, hfa⟩ := transcribeChunks_ok h
        obtain ⟨t, ht⟩ := forall2_exists_of_mem hfa p hp
        exact absurd ht (hfail t)
  exact ⟨hmain.1, hmain.2,
    processAudioFile_deleted_eq_written tr tmpdir now filePath fileBuffer fileSize originalName⟩

/-- Concrete instantiation of `processAudioFile_chunk_failure_aborts_and_cleans`
at a 39 MB file whose first chunk call fails. -/
theorem processAudioFile_chunk_failure_witness :
    (∃ e, (processAudioFile (fun _ => Except.error "boom") "/tmp" 0 "/tmp/a.mp3" []
      (39 * 1024 * 1024) "a.mp3").result = Except.error e) ∧
    (processAudioFile (fun _ => Except.error "boom") "/tmp" 0 "/tmp/a.mp3" []
      (39 * 1024 * 1024) "a.mp3").written =
      (splitMP3IntoChunks "/tmp" 0 "/tmp/a.mp3" [] (39 * 1024 * 1024)).map Prod.fst ∧
    (processAudioFile (fun _ => Except.error "boom") "/tmp" 0 "/tmp/a.mp3" []
      (39 * 1024 * 1024) "a.mp3").deleted =
      (processAudioFile (fun _ => Except.error "boom") "/tmp" 0 "/tmp/a.mp3" []
      (39 * 1024 * 1024) "a.mp3").written :=
  processAudioFile_chunk_failure_aborts_and_cleans (fun _ => Except.error "boom")
    "/tmp" 0 "/tmp/a.mp3" [] (39 * 1024 * 1024) "a.mp3" (by decide) (by decide)
    "/tmp/chunk_0_0.mp3" (by decide) (fun t h => Except.noConfusion h)

/-! ## Claim C3: one call under the threshold, one call per chunk above it -/

/-- C3: for a supported file of size at most `MAX_SIZE` the transcription call
is made exactly once, on the whole file; above the threshold, when every chunk
call succeeds, the calls are exactly the chunk paths for indices
`0, 1, ..., numChunks - 1` in that order (the loop is sequential, so call
`i + 1` happens only after call `i` resolved), and the number of calls is the
ceiling of `fileSize / CHUNK_SIZE`. -/
theorem processAudioFile_call_pattern
    (tr : String → Except String String) (tmpdir : String) (now : Nat) (filePath : String)
    (fileBuffer : List Nat) (fileSize : Nat) (originalName : String) (f : String → String)
    (hsup : isSupportedFormat originalName = true) :
    (fileSize ≤ MAX_SIZE →
      (processAudioFile tr tmpdir now filePath fileBuffer fileSize originalName).calls =
        [filePath]) ∧
    (MAX_SIZE < fileSize →
      (∀ p ∈ (splitMP3IntoChunks tmpdir now filePath fileBuffer fileSize).map Prod.fst,
        tr p = Except.ok (f p)) →
      (processAudioFile tr tmpdir now filePath fileBuffer fileSize originalName).calls =
        (List.range (numChunks fileSize)).map (chunkPath tmpdir now (extname filePath)) ∧
      CHUNK_SIZE *
        ((processAudioFile tr tmpdir now filePath fileBuffer fileSize originalName).calls.length
          - 1) < fileSize ∧
      fileSize ≤ CHUNK_SIZE *
        (processAudioFile tr tmpdir now filePath fileBuffer fileSize originalName).calls.length) := by
  have hnsup : ¬ isSupportedFormat originalName = false := by simp [hsup]
  have hpaths : (splitMP3IntoChunks tmpdir now filePath fileBuffer fileSize).map Prod.fst =
      (List.range (numChunks fileSize)).map (chunkPath tmpdir now (extname filePath)) := by
    unfold splitMP3IntoChunks
    rw [List.map_map]
    rfl
  constructor
  · intro hle
    unfold processAudioFile
    rw [if_neg hnsup, if_pos hle]
    split
    · rfl
    · split
      · rfl
      · rfl
  · intro hbig hok
    have hnle : ¬ fileSize ≤ MAX_SIZE := Nat.not_le.mpr hbig
    have hS : 0 < fileSize := Nat.lt_trans (by decide) hbig
    have hforall : List.Forall₂ (fun p t => tr p = Except.ok t)
        ((splitMP3IntoChunks tmpdir now filePath fileBuffer fileSize).map Prod.fst)
        (((splitMP3IntoChunks tmpdir now filePath fileBuffer fileSize).map Prod.fst).map f) :=
      List.forall₂_map_right_iff.mpr (List.forall₂_same.mpr hok)
    have hrun := @transcribeChunks_of_forall2 tr
        ((splitMP3IntoChunks tmpdir now filePath fileBuffer fileSize).map Prod.fst).length
        _ _ hforall 0
    have hcalls :
        (processAudioFile tr tmpdir now filePath fileBuffer fileSize originalName).calls =
          (splitMP3IntoChunks tmpdir now filePath fileBuffer fileSize).map Prod.fst := by
      unfold processAudioFile
      rw [if_neg hnsup, if_neg hnle, hrun]
      split
      · next x e cs heq => simp at heq
      · next x ts cs heq =>
          simp only [Prod.mk.injEq, Except.ok.injEq] at heq
          obtain ⟨h1, h2⟩ := heq
          subst h2
          split
          · rfl
          · rfl
    have hlen : ((splitMP3IntoChunks tmpdir now filePath fileBuffer fileSize).map
        Prod.fst).length = numChunks fileSize := by
      simp [splitMP3IntoChunks]
    refine ⟨by rw [hcalls, hpaths], ?_, ?_⟩
    · rw [hcalls, hlen]
      exact (numChunks_ceil fileSize hS).1
    · rw [hcalls, hlen]
      exact (numChunks_ceil fileSize hS).2

/-- Concrete instantiation of `processAudioFile_call_pattern`: a 3-byte file
gives one call on the whole file; a 39 MB file gives the two chunk calls in
index order. -/
theorem processAudioFile_call_pattern_witness :
    (processAudioFile (fun _ => Except.ok "x") "/tmp" 0 "/tmp/a.mp3" [1, 2, 3] 3
      "a.mp3").calls = ["/tmp/a.mp3"] ∧
    (processAudioFile (fun _ => Except.ok "x") "/tmp" 0 "/tmp/a.mp3" []
      (39 * 1024 * 1024) "a.mp3").calls =
      (List.range (numChunks (39 * 1024 * 1024))).map
        (chunkPath "/tmp" 0 (extname "/tmp/a.mp3")) :=
  ⟨(processAudioFile_call_pattern (fun _ => Except.ok "x") "/tmp" 0 "/tmp/a.mp3" [1, 2, 3] 3
      "a.mp3" (fun _ => "x") (by decide)).1 (by decide),
   ((processAudioFile_call_pattern (fun _ => Except.ok "x") "/tmp" 0 "/tmp/a.mp3" []
      (39 * 1024 * 1024) "a.mp3" (fun _ => "x") (by decide)).2 (by decide)
      (fun p _ => rfl)).1⟩

/-! ## Claim C6: an all-blank transcription is a distinct fatal error -/

/-- A string of whitespace characters trims to the empty string. -/
theorem jsTrim_length_eq_zero {s : String} (h : s.data.all jsWhitespace = true) :
    (jsTrim s).length = 0 := by
  unfold jsTrim
  have h1 : s.data.dropWhile jsWhitespace = [] :=
    List.dropWhile_eq_nil_iff.mpr fun x hx => List.all_eq_true.mp h x hx
  rw [h1]
  rfl

/-- Joining all-whitespace fragments with the separator gives an
all-whitespace string. -/
theorem joinWithSep_blank :
    ∀ l : List String, (∀ s ∈ l, s.data.all jsWhitespace = true) →
      (joinWithSep "\n\n" l).data.all jsWhitespace = true := by
  intro l
  induction l with
  | nil => intro _; rfl
  | cons s rest ih =>
    intro h
    cases rest with
    | nil => exact h s (List.mem_singleton.mpr rfl)
    | cons s2 rest2 =>
      show ((s ++ "\n\n") ++ joinWithSep "\n\n" (s2 :: rest2)).data.all jsWhitespace = true
      have h1 := h s (List.mem_cons_self s (s2 :: rest2))
      have h2 : ("\n\n" : String).data.all jsWhitespace = true := by decide
      have h3 := ih fun t ht => h t (List.mem_cons_of_mem s ht)
      rw [String.data_append, String.data_append, List.all_append, List.all_append,
        h1, h2, h3]
      rfl

/-- C6: when every obtained fragment is blank (all whitespace), the joined
transcription trims to the empty string, and `processAudioFile` raises the
distinct fatal error instead of returning the empty transcript as a success —
both on the direct path and on the chunked path. -/
theorem processAudioFile_all_blank_error
    (tr : String → Except String String) (tmpdir : String) (now : Nat) (filePath : String)
    (fileBuffer : List Nat) (fileSize : Nat) (originalName : String)
    (t : String) (f : String → String)
    (hsup : isSupportedFormat originalName = true) :
    (fileSize ≤ MAX_SIZE → tr filePath = Except.ok t → t.data.all jsWhitespace = true →
      (processAudioFile tr tmpdir now filePath fileBuffer fileSize originalName).result =
        Except.error "No se pudo obtener ninguna transcripción del audio") ∧
    (MAX_SIZE < fileSize →
      (∀ p ∈ (splitMP3IntoChunks tmpdir now filePath fileBuffer fileSize).map Prod.fst,
        tr p = Except.ok (f p)) →
      (∀ p ∈ (splitMP3IntoChunks tmpdir now filePath fileBuffer fileSize).map Prod.fst,
        (f p).data.all jsWhitespace = true) →
      (processAudioFile tr tmpdir now filePath fileBuffer fileSize originalName).result =
        Except.error "No se pudo obtener ninguna transcripción del audio") := by
  have hnsup : ¬ isSupportedFormat originalName = false := by simp [hsup]
  constructor
  · intro hle htr hblank
    have hz : (jsTrim (joinWithSep "\n\n" [t])).length = 0 :=
      jsTrim_length_eq_zero (s := joinWithSep "\n\n" [t]) hblank
    unfold processAudioFile
    rw [if_neg hnsup, if_pos hle, htr]
    split
    · next e heq => simp at heq
    · next t2 heq =>
        simp only [Except.ok.injEq] at heq
        subst heq
        rw [if_pos hz]
  · intro hbig hok hblank
    have hnle : ¬ fileSize ≤ MAX_SIZE := Nat.not_le.mpr hbig
    have hforall : List.Forall₂ (fun p t => tr p = Except.ok t)
        ((splitMP3IntoChunks tmpdir now filePath fileBuffer fileSize).map Prod.fst)
        (((splitMP3IntoChunks tmpdir now filePath fileBuffer fileSize).map Prod.fst).map f) :=
      List.forall₂_map_right_iff.mpr (List.forall₂_same.mpr hok)
    have hrun := @transcribeChunks_of_forall2 tr
        ((splitMP3IntoChunks tmpdir now filePath fileBuffer fileSize).map Prod.fst).length
        _ _ hforall 0
    have hz : (jsTrim (joinWithSep "\n\n" (((splitMP3IntoChunks tmpdir now filePath
        fileBuffer fileSize).map Prod.fst).map f))).length = 0 := by
      refine jsTrim_length_eq_zero (joinWithSep_blank _ fun u hu => ?_)
      obtain ⟨p, hp, rfl⟩ := List.mem_map.mp hu
      exact hblank p hp
    unfold processAudioFile
    rw [if_neg hnsup, if_neg hnle, hrun]
    split
    · next x e cs heq => simp at heq
    · next x ts cs heq =>
        simp only [Prod.mk.injEq, Except.ok.injEq] at heq
        obtain ⟨h1, h2⟩ := heq
        subst h1
        subst h2
        rw [if_pos hz]

/-- Concrete instantiation of `processAudioFile_all_blank_error`: a small file
whose only fragment is whitespace yields the distinct error. -/
theorem processAudioFile_all_blank_witness :
    (processAudioFile (fun _ => Except.ok "  ") "/tmp" 0 "/tmp/a.mp3" [1] 1 "a.mp3").result =
      Except.error "No se pudo obtener ninguna transcripción del audio" :=
  (processAudioFile_all_blank_error (fun _ => Except.ok "  ") "/tmp" 0 "/tmp/a.mp3" [1] 1
    "a.mp3" "  " (fun _ => "  ") (by decide)).1 (by decide) rfl (by decide)

/-! ## Claim C7: unsupported extensions are rejected before any call -/

/-- C7: whenever the lower-cased extension of the uploaded name is not in the
allow-list, `processAudioFile` fails with the user-facing message naming the
rejected extension, without making any transcription call and without writing
any chunk file. -/
theorem processAudioFile_unsupported_rejected
    (tr : String → Except String String) (tmpdir : String) (now : Nat) (filePath : String)
    (fileBuffer : List Nat) (fileSize : Nat) (originalName : String)
    (hbad : SUPPORTED_FORMATS.contains (jsToLower (extname originalName)) = false) :
    (processAudioFile tr tmpdir now filePath fileBuffer fileSize originalName).result =
      Except.error ("Formato " ++ jsToLower (extname originalName) ++
        " no soportado. Por favor, convierte tu audio a MP3 primero usando un convertidor online.") ∧
    (processAudioFile tr tmpdir now filePath fileBuffer fileSize originalName).calls = [] ∧
    (processAudioFile tr tmpdir now filePath fileBuffer fileSize originalName).written = [] := by
  have hsup : isSupportedFormat originalName = false := hbad
  unfold processAudioFile
  rw [if_pos hsup]
  exact ⟨rfl, rfl, rfl⟩

/-- Concrete instantiation of `processAudioFile_unsupported_rejected` at an
`.aiff` upload. -/
theorem processAudioFile_unsupported_witness :
    (processAudioFile (fun _ => Except.ok "x") "/tmp" 0 "/tmp/a.aiff" [1] 1
      "voice.aiff").result =
      Except.error ("Formato " ++ jsToLower (extname "voice.aiff") ++
        " no soportado. Por favor, convierte tu audio a MP3 primero usando un convertidor online.") ∧
    (processAudioFile (fun _ => Except.ok "x") "/tmp" 0 "/tmp/a.aiff" [1] 1
      "voice.aiff").calls = [] ∧
    (processAudioFile (fun _ => Except.ok "x") "/tmp" 0 "/tmp/a.aiff" [1] 1
      "voice.aiff").written = [] :=
  processAudioFile_unsupported_rejected (fun _ => Except.ok "x") "/tmp" 0 "/tmp/a.aiff" [1] 1
    "voice.aiff" (by decide)

/-! ## Claim C8: fragments are joined in chunk order with the fixed separator -/

/-- C8: on the chunked path, when every chunk call succeeds and the joined
text is not all whitespace, the returned transcript is exactly the fragments
in chunk order joined with the fixed separator; in particular joining two
fragments gives fragment1 ++ separator ++ fragment2. -/
theorem processAudioFile_join_in_order
    (tr : String → Except String String) (tmpdir : String) (now : Nat) (filePath : String)
    (fileBuffer : List Nat) (fileSize : Nat) (originalName : String) (f : String → String)
    (hsup : isSupportedFormat originalName = true)
    (hbig : MAX_SIZE < fileSize)
    (hok : ∀ p ∈ (splitMP3IntoChunks tmpdir now filePath fileBuffer fileSize).map Prod.fst,
      tr p = Except.ok (f p))
    (hnb : (jsTrim (joinWithSep "\n\n" (((splitMP3IntoChunks tmpdir now filePath
      fileBuffer fileSize).map Prod.fst).map f))).length ≠ 0) :
    (processAudioFile tr tmpdir now filePath fileBuffer fileSize originalName).result =
      Except.ok (joinWithSep "\n\n"
        (((splitMP3IntoChunks tmpdir now filePath fileBuffer fileSize).map Prod.fst).map f)) ∧
    (∀ a b : String, joinWithSep "\n\n" [a, b] = a ++ "\n\n" ++ b) := by
  have hnsup : ¬ isSupportedFormat originalName = false := by simp [hsup]
  have hnle : ¬ fileSize ≤ MAX_SIZE := Nat.not_le.mpr hbig
  have hforall : List.Forall₂ (fun p t => tr p = Except.ok t)
      ((splitMP3IntoChunks tmpdir now filePath fileBuffer fileSize).map Prod.fst)
      (((splitMP3IntoChunks tmpdir now filePath fileBuffer fileSize).map Prod.fst).map f) :=
    List.forall₂_map_right_iff.mpr (List.forall₂_same.mpr hok)
  have hrun := @transcribeChunks_of_forall2 tr
      ((splitMP3IntoChunks tmpdir now filePath fileBuffer fileSize).map Prod.fst).length
      _ _ hforall 0
  refine ⟨?_, fun a b => rfl⟩
  unfold processAudioFile
  rw [if_neg hnsup, if_neg hnle, hrun]
  split
  · next x e cs heq => simp at heq
  · next x ts cs heq =>
      simp only [Prod.mk.injEq, Except.ok.injEq] at heq
      obtain ⟨h1, h2⟩ := heq
      subst h1
      subst h2
      rw [if_neg hnb]

/-- Concrete instantiation of `processAudioFile_join_in_order`: a 39 MB file
splits into two chunks and the result is fragment1 ++ separator ++ fragment2. -/
theorem processAudioFile_join_in_order_witness :
    (processAudioFile
      (fun p => if p = "/tmp/chunk_0_0.mp3" then Except.ok "uno" else Except.ok "dos")
      "/tmp" 0 "/tmp/a.mp3" [] (39 * 1024 * 1024) "a.mp3").result =
      Except.ok ("uno" ++ "\n\n" ++ "dos") :=
  (processAudioFile_join_in_order
    (fun p => if p = "/tmp/chunk_0_0.mp3" then Except.ok "uno" else Except.ok "dos")
    "/tmp" 0 "/tmp/a.mp3" [] (39 * 1024 * 1024) "a.mp3"
    (fun p => if p = "/tmp/chunk_0_0.mp3" then "uno" else "dos")
    (by decide) (by decide)
    (by intro p hp; by_cases h : p = "/tmp/chunk_0_0.mp3" <;> simp [h]) (by decide)).1

/-! ## The retrying `transcribeAudio` of the unnamed source part (lines 78-124) -/

/-- The error value thrown by the OpenAI client: an optional HTTP status, an
optional Node error code, and a message. -/
structure ApiError where
  status : Option Nat
  code : Option String
  msg : String
deriving Repr

/-- Naive substring search over character lists. -/
def listIncludes (sub : List Char) : List Char → Bool
  | [] => sub.isEmpty
  | c :: cs => sub.isPrefixOf (c :: cs) || listIncludes sub cs

/-- Model of JS `String.prototype.includes`. -/
def jsIncludes (s sub : String) : Bool := listIncludes sub.data s.data

/-- The source's transient-connection test:
`error.code === 'ECONNREFUSED' || error.code === 'ENOTFOUND' ||
error.message.includes('Connection error')`. -/
def isConnError (e : ApiError) : Bool :=
  e.code == some "ECONNREFUSED" || e.code == some "ENOTFOUND" ||
    jsIncludes e.msg "Connection error"

/-- `MAX_RETRIES = 3`. -/
def MAX_RETRIES : Nat := 3

/-- Observable outcome of one `transcribeAudio` invocation chain: the returned
text or thrown error, the number of API attempts made, and the waits (in ms)
slept between attempts. -/
structure TrRun where
  result : Except String String
  attempts : Nat
  waits : List Nat
deriving Repr

/-- `transcribeAudio(filePath, retryCount)` of the unnamed source part, with
the OpenAI call modelled by the oracle `api` from attempt index to outcome.
Status 401, 429 and 413 are rethrown as fatal messages; connection errors are
retried while `retryCount < MAX_RETRIES` after waiting `(retryCount+1)*2000`
ms; any other error is rethrown with the upstream message (or a fallback when
that message is empty). -/
def transcribeAudio (api : Nat → Except ApiError String) (retryCount : Nat) : TrRun :=
  match api retryCount with
  | Except.ok t => { result := Except.ok t, attempts := 1, waits := [] }
  | Except.error e =>
    if e.status == some 401 then
      { result := Except.error
          "API key de OpenAI inválida. Por favor, verifica tu configuración en .env.local",
        attempts := 1, waits := [] }
    else if e.status == some 429 then
      { result := Except.error
          "Límite de rate excedido. Espera unos minutos e intenta nuevamente.",
        attempts := 1, waits := [] }
    else if e.status == some 413 then
      { result := Except.error "El archivo es demasiado grande para este fragmento.",
        attempts := 1, waits := [] }
    else if isConnError e then
      if _h : retryCount < MAX_RETRIES then
        { result := (transcribeAudio api (retryCount + 1)).result,
          attempts := (transcribeAudio api (retryCount + 1)).attempts + 1,
          waits := (retryCount + 1) * 2000 :: (transcribeAudio api (retryCount + 1)).waits }
      else
        { result := Except.error
            "Error de conexión con OpenAI después de varios intentos. Verifica tu conexión a internet y que tu API key sea válida.",
          attempts := 1, waits := [] }
    else
      { result := Except.error (if e.msg == "" then "Error desconocido al transcribir audio"
          else e.msg),
        attempts := 1, waits := [] }
termination_by MAX_RETRIES - retryCount
decreasing_by all_goals omega

/-! ## Lemmas about one step of the retry loop -/

/-- A transient connection error below the retry bound recurses with
`retryCount + 1` after recording the wait `(retryCount + 1) * 2000` ms. -/
theorem transcribeAudio_conn_step (api : Nat → Except ApiError String) (r : Nat)
    (hr : r < MAX_RETRIES) (e : ApiError) (he : api r = Except.error e)
    (h401 : (e.status == some 401) = false) (h429 : (e.status == some 429) = false)
    (h413 : (e.status == some 413) = false) (hconn : isConnError e = true) :
    transcribeAudio api r =
      { result := (transcribeAudio api (r + 1)).result,
        attempts := (transcribeAudio api (r + 1)).attempts + 1,
        waits := (r + 1) * 2000 :: (transcribeAudio api (r + 1)).waits } := by
  conv_lhs => rw [transcribeAudio.eq_def]
  simp [he, h401, h429, h413, hconn, hr]

/-- A transient connection error at the retry bound is surfaced as the fatal
connection-failure message without a further attempt. -/
theorem transcribeAudio_conn_exhausted (api : Nat → Except ApiError String) (r : Nat)
    (hr : ¬ r < MAX_RETRIES) (e : ApiError) (he : api r = Except.error e)
    (h401 : (e.status == some 401) = false) (h429 : (e.status == some 429) = false)
    (h413 : (e.status == some 413) = false) (hconn : isConnError e = true) :
    transcribeAudio api r =
      { result := Except.error
          "Error de conexión con OpenAI después de varios intentos. Verifica tu conexión a internet y que tu API key sea válida.",
        attempts := 1, waits := [] } := by
  conv_lhs => rw [transcribeAudio.eq_def]
  simp [he, h401, h429, h413, hconn, hr]

/-! ## Claim C5: transient connection errors retried 3 times with 2s/4s/6s -/

/-- C5: when every attempt fails with a transient connection error (and none
of the fatal statuses), `transcribeAudio` starting at retry count 0 makes
`MAX_RETRIES + 1 = 4` attempts, waits 2000 ms, 4000 ms and 6000 ms between
them, and then surfaces the fatal connection-failure error. -/
theorem transcribeAudio_conn_retry_schedule (api : Nat → Except ApiError String)
    (hconn : ∀ k, k ≤ MAX_RETRIES → ∃ e, api k = Except.error e ∧
      (e.status == some 401) = false ∧ (e.status == some 429) = false ∧
      (e.status == some 413) = false ∧ isConnError e = true) :
    (transcribeAudio api 0).attempts = MAX_RETRIES + 1 ∧
    (transcribeAudio api 0).waits = [2000, 4000, 6000] ∧
    (transcribeAudio api 0).result = Except.error
      "Error de conexión con OpenAI después de varios intentos. Verifica tu conexión a internet y que tu API key sea válida." := by
  obtain ⟨e0, he0, h01, h02, h03, h04⟩ := hconn 0 (by decide)
  obtain ⟨e1, he1, h11, h12, h13, h14⟩ := hconn 1 (by decide)
  obtain ⟨e2, he2, h21, h22, h23, h24⟩ := hconn 2 (by decide)
  obtain ⟨e3, he3, h31, h32, h33, h34⟩ := hconn 3 (by decide)
  have s0 := transcribeAudio_conn_step api 0 (by decide) e0 he0 h01 h02 h03 h04
  have s1 := transcribeAudio_conn_step api 1 (by decide) e1 he1 h11 h12 h13 h14
  have s2 := transcribeAudio_conn_step api 2 (by decide) e2 he2 h21 h22 h23 h24
  have s3 := transcribeAudio_conn_exhausted api 3 (by decide) e3 he3 h31 h32 h33 h34
  rw [s0, s1, s2, s3]
  exact ⟨rfl, rfl, rfl⟩

/-- Concrete instantiation of `transcribeAudio_conn_retry_schedule` at an API
that always refuses the connection. -/
theorem transcribeAudio_conn_retry_witness :
    (transcribeAudio (fun _ => Except.error ⟨none, some "ECONNREFUSED", "x"⟩) 0).attempts =
      MAX_RETRIES + 1 ∧
    (transcribeAudio (fun _ => Except.error ⟨none, some "ECONNREFUSED", "x"⟩) 0).waits =
      [2000, 4000, 6000] ∧
    (transcribeAudio (fun _ => Except.error ⟨none, some "ECONNREFUSED", "x"⟩) 0).result =
      Except.error
        "Error de conexión con OpenAI después de varios intentos. Verifica tu conexión a internet y que tu API key sea válida." :=
  transcribeAudio_conn_retry_schedule (fun _ => Except.error ⟨none, some "ECONNREFUSED", "x"⟩)
    (fun _ _ => ⟨⟨none, some "ECONNREFUSED", "x"⟩, rfl, rfl, rfl, rfl, rfl⟩)

/-! ## Claim C9: fatal API failures are classified and raised immediately -/

/-- C9: an authentication failure (401) is fatal and never retried; a
rate-limit failure (429) is fatal for the call with no backoff wait; a
payload-too-large failure (413) is fatal; any other non-transient error is
surfaced with the upstream message. Each is raised immediately: one attempt,
no waits. -/
theorem transcribeAudio_classifies_failures (api : Nat → Except ApiError String) (r : Nat)
    (e : ApiError) (he : api r = Except.error e) :
    ((e.status == some 401) = true →
      transcribeAudio api r =
        { result := Except.error
            "API key de OpenAI inválida. Por favor, verifica tu configuración en .env.local",
          attempts := 1, waits := [] }) ∧
    ((e.status == some 429) = true →
      transcribeAudio api r =
        { result := Except.error
            "Límite de rate excedido. Espera unos minutos e intenta nuevamente.",
          attempts := 1, waits := [] }) ∧
    ((e.status == some 413) = true →
      transcribeAudio api r =
        { result := Except.error "El archivo es demasiado grande para este fragmento.",
          attempts := 1, waits := [] }) ∧
    ((e.status == some 401) = false → (e.status == some 429) = false →
      (e.status == some 413) = false → isConnError e = false → (e.msg == "") = false →
      transcribeAudio api r =
        { result := Except.error e.msg, attempts := 1, waits := [] }) := by
  refine ⟨?_, ?_, ?_, ?_⟩
  · intro h401
    conv_lhs => rw [transcribeAudio.eq_def]
    simp [he, h401]
  · intro h429
    have h401 : (e.status == some 401) = false := by
      have := beq_iff_eq.mp h429
      simp [this]
    conv_lhs => rw [transcribeAudio.eq_def]
    simp [he, h401, h429]
  · intro h413
    have h401 : (e.status == some 401) = false := by
      have := beq_iff_eq.mp h413
      simp [this]
    have h429 : (e.status == some 429) = false := by
      have := beq_iff_eq.mp h413
      simp [this]
    conv_lhs => rw [transcribeAudio.eq_def]
    simp [he, h401, h429, h413]
  · intro h401 h429 h413 hconn hmsg
    conv_lhs => rw [transcribeAudio.eq_def]
    simp [he, h401, h429, h413, hconn, hmsg]

/-- Concrete instantiation of `transcribeAudio_classifies_failures` at the
four failure shapes. -/
theorem transcribeAudio_classifies_witness :
    transcribeAudio (fun _ => Except.error ⟨some 401, none, "u"⟩) 0 =
      { result := Except.error
          "API key de OpenAI inválida. Por favor, verifica tu configuración en .env.local",
        attempts := 1, waits := [] } ∧
    transcribeAudio (fun _ => Except.error ⟨some 429, none, "u"⟩) 0 =
      { result := Except.error
          "Límite de rate excedido. Espera unos minutos e intenta nuevamente.",
        attempts := 1, waits := [] } ∧
    transcribeAudio (fun _ => Except.error ⟨some 413, none, "u"⟩) 0 =
      { result := Except.error "El archivo es demasiado grande para este fragmento.",
        attempts := 1, waits := [] } ∧
    transcribeAudio (fun _ => Except.error ⟨some 500, none, "upstream"⟩) 0 =
      { result := Except.error "upstream", attempts := 1, waits := [] } :=
  ⟨(transcribeAudio_classifies_failures (fun _ => Except.error ⟨some 401, none, "u"⟩) 0
      ⟨some 401, none, "u"⟩ rfl).1 rfl,
   (transcribeAudio_classifies_failures (fun _ => Except.error ⟨some 429, none, "u"⟩) 0
      ⟨some 429, none, "u"⟩ rfl).2.1 rfl,
   (transcribeAudio_classifies_failures (fun _ => Except.error ⟨some 413, none, "u"⟩) 0
      ⟨some 413, none, "u"⟩ rfl).2.2.1 rfl,
   (transcribeAudio_classifies_failures (fun _ => Except.error ⟨some 500, none, "upstream"⟩) 0
      ⟨some 500, none, "upstream"⟩ rfl).2.2.2 rfl rfl rfl (by decide) rfl⟩

/-! ## Client-side validators (`src/lib/utils.ts`) -/

/-- `validTypes` — the MIME allow-list of `isValidAudioFile`. -/
def validTypes : List String :=
  ["audio/mpeg", "audio/mp3", "audio/mp4", "audio/wav", "audio/x-wav", "audio/webm",
   "audio/m4a", "audio/x-m4a", "audio/aac", "audio/mpga"]

/-- Model of the regex test
`fileName.match(/\.(mp3|mp4|mpeg|mpga|m4a|wav|webm|aac)$/i) !== null`:
the lower-cased name ends with a dot followed by one of the alternatives. -/
def audioExtRegexMatches (fileName : String) : Bool :=
  ["mp3", "mp4", "mpeg", "mpga", "m4a", "wav", "webm", "aac"].any fun ext =>
    ("." ++ ext).data.isSuffixOf (jsToLower fileName).data

/-- `isValidAudioFile(file)`: MIME type in the allow-list, or the name matches
the extension regex. -/
def isValidAudioFile (fileType fileName : String) : Bool :=
  validTypes.contains fileType || audioExtRegexMatches fileName

/-- `getSupportedFormats()`. -/
def getSupportedFormats : List String :=
  [".mp3", ".mp4", ".mpeg", ".mpga", ".m4a", ".wav", ".webm", ".aac"]

/-- C10: the filename `audio.aac` (MIME `audio/aac`) passes the client-side
validator and `.aac` is listed by `getSupportedFormats`, yet the server-side
`isSupportedFormat` rejects it, so `processAudioFile` fails before any
transcription call (no call is made) with the unsupported-format error. -/
theorem client_accepts_aac_server_rejects :
    isValidAudioFile "audio/aac" "audio.aac" = true ∧
    audioExtRegexMatches "audio.aac" = true ∧
    getSupportedFormats.contains ".aac" = true ∧
    isSupportedFormat "audio.aac" = false ∧
    (processAudioFile (fun _ => Except.ok "x") "/tmp" 0 "/tmp/audio.aac" [1] 1
      "audio.aac").calls = [] ∧
    (processAudioFile (fun _ => Except.ok "x") "/tmp" 0 "/tmp/audio.aac" [1] 1
      "audio.aac").result = Except.error
        "Formato .aac no soportado. Por favor, convierte tu audio a MP3 primero usando un convertidor online." :=
  ⟨by decide, by decide, by decide, by decide, by decide, rfl⟩

/-! ## The `POST` handler (`route.ts` lines 142-205) -/

/-- The uploaded form file: original name, reported size, raw bytes. -/
structure JsFile where
  name : String
  size : Nat
  bytes : List Nat

/-- Observable outcome of one `POST` request: HTTP status, JSON error message
(for failures), PDF payload (for success), the upload temp file path if one
was written, and whether that file was unlinked before responding. -/
structure PostRun where
  status : Nat
  errorMsg : Option String
  pdfBytes : Option (List Nat)
  tempPath : Option String
  tempDeleted : Bool

/-- `POST(req)`: check the API key, read the form file, write it to
`upload_${Date.now()}_${file.name}` under the temp directory, run
`processAudioFile`, then `generatePDF` (modelled by the oracle `pdf`) and
respond. The `catch` block deletes the temp file and answers 500 with the
thrown message (or a fallback when it is empty); the success path responds 200
with the PDF and performs no deletion. -/
def POST (tr : String → Except String String) (pdf : String → String → Except String (List Nat))
    (tmpdir : String) (now : Nat) (apiKey : Option String) (form : Option JsFile) : PostRun :=
  match apiKey with
  | none =>
    { status := 500, errorMsg := some "API Key de OpenAI no configurada",
      pdfBytes := none, tempPath := none, tempDeleted := false }
  | some _ =>
    match form with
    | none =>
      { status := 400, errorMsg := some "No se encontró el archivo de audio",
        pdfBytes := none, tempPath := none, tempDeleted := false }
    | some file =>
      match (processAudioFile tr tmpdir now
          (tmpdir ++ "/upload_" ++ toString now ++ "_" ++ file.name)
          file.bytes file.size file.name).result with
      | Except.error e =>
        { status := 500,
          errorMsg := some (if e == "" then "Error al procesar el audio" else e),
          pdfBytes := none,
          tempPath := some (tmpdir ++ "/upload_" ++ toString now ++ "_" ++ file.name),
          tempDeleted := true }
      | Except.ok transcription =>
        match pdf file.name transcription with
        | Except.error e =>
          { status := 500,
            errorMsg := some (if e == "" then "Error al procesar el audio" else e),
            pdfBytes := none,
            tempPath := some (tmpdir ++ "/upload_" ++ toString now ++ "_" ++ file.name),
            tempDeleted := true }
        | Except.ok bytes =>
          { status := 200, errorMsg := none, pdfBytes := some bytes,
            tempPath := some (tmpdir ++ "/upload_" ++ toString now ++ "_" ++ file.name),
            tempDeleted := false }

/-! ## Claim C4: the upload temp file and request-end cleanup -/

/-- C4 counterexample: a fully successful request (valid key, valid `.mp3`
upload, transcription and PDF generation succeed) responds 200 with the upload
temp file written but NOT deleted — the handler only unlinks it in the `catch`
block, so on success the file remains on disk. -/
theorem POST_success_leaves_upload_file :
    (POST (fun _ => Except.ok "hola") (fun _ _ => Except.ok [1]) "/tmp" 0 (some "sk-x")
      (some ⟨"a.mp3", 3, [1, 2, 3]⟩)).status = 200 ∧
    (POST (fun _ => Except.ok "hola") (fun _ _ => Except.ok [1]) "/tmp" 0 (some "sk-x")
      (some ⟨"a.mp3", 3, [1, 2, 3]⟩)).tempPath = some "/tmp/upload_0_a.mp3" ∧
    (POST (fun _ => Except.ok "hola") (fun _ _ => Except.ok [1]) "/tmp" 0 (some "sk-x")
      (some ⟨"a.mp3", 3, [1, 2, 3]⟩)).tempDeleted = false :=
  ⟨rfl, rfl, rfl⟩

/-- C4 (amended): whenever the upload temp file was written and the request
fails, the file is deleted before the error response is sent; on a successful
(200) response it is not deleted. -/
theorem POST_temp_cleanup_on_failure_only
    (tr : String → Except String String) (pdf : String → String → Except String (List Nat))
    (tmpdir : String) (now : Nat) (apiKey : Option String) (form : Option JsFile) :
    ((POST tr pdf tmpdir now apiKey form).tempPath.isSome = true →
      (POST tr pdf tmpdir now apiKey form).status ≠ 200 →
      (POST tr pdf tmpdir now apiKey form).tempDeleted = true) ∧
    ((POST tr pdf tmpdir now apiKey form).status = 200 →
      (POST tr pdf tmpdir now apiKey form).tempDeleted = false) := by
  unfold POST
  split
  · exact ⟨fun h1 _ => by simp at h1, fun h => by simp at h⟩
  · split
    · exact ⟨fun h1 _ => by simp at h1, fun h => by simp at h⟩
    · split
      · exact ⟨fun _ _ => rfl, fun h => by simp at h⟩
      · split
        · exact ⟨fun _ _ => rfl, fun h => by simp at h⟩
        · exact ⟨fun _ h2 => absurd rfl h2, fun _ => rfl⟩

/-- Concrete instantiation of `POST_temp_cleanup_on_failure_only`: a failing
transcription leads to deletion before the 500 response; the successful run of
the counterexample is not deleted. -/
theorem POST_temp_cleanup_witness :
    (POST (fun _ => Except.error "boom") (fun _ _ => Except.ok [1]) "/tmp" 0 (some "sk-x")
      (some ⟨"a.mp3", 3, [1, 2, 3]⟩)).tempDeleted = true ∧
    (POST (fun _ => Except.ok "hola") (fun _ _ => Except.ok [1]) "/tmp" 0 (some "sk-x")
      (some ⟨"a.mp3", 3, [1, 2, 3]⟩)).tempDeleted = false :=
  ⟨(POST_temp_cleanup_on_failure_only (fun _ => Except.error "boom")
      (fun _ _ => Except.ok [1]) "/tmp" 0 (some "sk-x") (some ⟨"a.mp3", 3, [1, 2, 3]⟩)).1
      rfl (by decide),
   (POST_temp_cleanup_on_failure_only (fun _ => Except.ok "hola")
      (fun _ _ => Except.ok [1]) "/tmp" 0 (some "sk-x") (some ⟨"a.mp3", 3, [1, 2, 3]⟩)).2
      rfl⟩

end TranscriptionApp
